import Mathlib

/-!
Verification of the screman display-control library against its
natural-language specification.  The Python sources under scrutiny are
`helpers.py`, `types.py`, `cgdisplay.py` and `cgdisplaystream.py`; each
definition below is a shallow embedding of one function of those files,
with raw platform status codes passed in as explicit parameters and the
OS primitives' side effects recorded in the returned values.
-/

namespace Screman

/-! ### helpers.py -/

/-- Embedding of `helpers.err_to_exception`: a dictionary lookup over the
six known raw codes, with `query_exc[0]` (the Success name) as the
fallback for every other input. -/
def err_to_exception (err : Int) : String :=
  if err = 0 then "_kCGErrorSuccess"
  else if err = 1000 then "_kCGErrorFailure"
  else if err = 1001 then "_kCGErrorIllegalArgument"
  else if err = 1011 then "_kCGErrorNoneAvailable"
  else if err = 1970170734 then "_kDisplayVendorIDUnknown"
  else if err = 1007 then "_kCGErrorRangeCheck"
  else "_kCGErrorSuccess"

/-! ### cgdisplay.py: capability loading

`_DisplayCallbackDelegate._load` unconditionally loads the MonitorPanel
and CoreBrightness bundles plus the DisplayServices dylib and returns
`[globals(), displayservices]`.  Module `globals()` is a non-empty dict,
hence always truthy.  We thread an explicit state counting how many
times the load has been performed. -/

structure LoadState where
  loadAttempts : Nat
deriving DecidableEq, Repr

/-- Embedding of `_load`: every call performs the framework loads anew
(no memoisation exists in the source) and yields a truthy module table. -/
def load (s : LoadState) : LoadState × Bool :=
  ({ loadAttempts := s.loadAttempts + 1 }, true)

/-! ### cgdisplay.py: _setDisplayMode -/

/-- Outcome of a command that may return a wrapped status code
(`kCGErrorTypes(code)`), raise an uncaught exception, or return Python
`None` by falling off the end. -/
inductive ModeResult
  | err (code : Int)
  | raised
  | nothing
deriving DecidableEq, Repr

/-- Embedding of `_setDisplayMode(modeIndex)`.  `modes` stands for
`display.allModes()` (a 0-indexed array), `primStatus` for the raw value
of `display.setMode_(mode)`.  The source checks
`modeIndex <= 0 or modeIndex > len(modes)` and then evaluates
`modes[modeIndex]`, which raises when `modeIndex = len(modes)`. -/
def setDisplayMode (s : LoadState) (modes : List Nat) (primStatus : Int)
    (modeIndex : Int) : LoadState × ModeResult :=
  let (s1, isLoadMp) := load s
  (s1,
    if isLoadMp then
      if modeIndex ≤ 0 ∨ modeIndex > (modes.length : Int) then ModeResult.err 1001
      else
        match modes.get? modeIndex.toNat with
        | none => ModeResult.raised
        | some _mode => ModeResult.err (if primStatus = 0 then 0 else primStatus)
    else ModeResult.nothing)

/-! ### cgdisplay.py: _setRotation -/

/-- Result of `_setRotation`: the returned value (`some code` for a
wrapped status, `none` for Python `None`) together with whether the
orientation primitive `setOrientation_` was invoked. -/
structure RotOutcome where
  res : Option Int
  primCalled : Bool
deriving DecidableEq, Repr

/-- Embedding of `_setRotation(angle)`.  On a rotation-capable device the
source runs `self.status = self._mp_display.setOrientation_(angle)` first
and only inspects `angle % 90` afterwards, when the status was not
Success. -/
def setRotation (s : LoadState) (canChange : Bool) (primStatus : Int)
    (angle : Int) : LoadState × RotOutcome :=
  let (s1, isLoadMp) := load s
  (s1,
    if isLoadMp then
      if canChange then
        if primStatus = 0 then { res := some 0, primCalled := true }
        else if ¬ angle % 90 = 0 then { res := some 1001, primCalled := true }
        else { res := some primStatus, primCalled := true }
      else { res := none, primCalled := false }
    else { res := none, primCalled := false })

/-! ### cgdisplay.py: _moveTo -/

/-- Result of `_moveTo`: the wrapped status code returned and whether
`CGDisplayMoveCursorToPoint` was invoked. -/
structure MoveOutcome where
  code : Int
  primCalled : Bool
deriving DecidableEq, Repr

/-- Embedding of `_moveTo(x, y)`.  `w`, `h` stand for the display bounds
size, `primStatus` for the raw status of the cursor-move primitive.  The
source validates only `x >= w or y >= h`; lower bounds are not tested. -/
def moveTo (w h x y primStatus : Int) : MoveOutcome :=
  if x ≥ w ∨ y ≥ h then { code := 1001, primCalled := false }
  else { code := if primStatus = 0 then 0 else primStatus, primCalled := true }

/-! ### cgdisplay.py: _setGamma -/

/-- Result of `_setGamma`: `err code` for a wrapped status, `nothing` for
Python `None` (the RangeCheck branch returns `None`). -/
inductive GammaRes
  | err (code : Int)
  | nothing
deriving DecidableEq, Repr

/-- Embedding of `_setGamma(red, blue, green)` paired with whether the
gamma-formula write `CGSetDisplayTransferByFormula` was attempted.  The
source rejects `red == blue == green` before any write. -/
def setGamma (red blue green : ℚ) (primStatus : Int) : GammaRes × Bool :=
  if red = blue ∧ blue = green then (GammaRes.err 1001, false)
  else if primStatus = 0 then (GammaRes.err 0, true)
  else if primStatus = 1007 then (GammaRes.nothing, true)
  else (GammaRes.err primStatus, true)

/-! ### cgdisplay.py: _setTransfer -/

/-- `Quartz.kCGDisplayEnabledFlag`, used by the source as the gamma table
size. -/
def kCGDisplayEnabledFlag : Nat := 256

/-- The value the loop body of `tables()` computes for index `rgb`:
`int(max(0.0, min(1.0, ((rgb/255 - 0.5) * 0.5) + 0.5)) * 255)` (the
clamped value is non-negative, so Python's truncating `int` is the
floor). -/
def contrastEntry (rgb : Nat) : Nat :=
  (⌊(max 0 (min 1 (((rgb : ℚ) / 255 - 1/2) * (1/2) + 1/2)) * 255 : ℚ)⌋).toNat

/-- Embedding of the inner `tables()` of `_setTransfer`.  The ctypes
arrays are zero-initialised with `kCGDisplayEnabledFlag` entries; the
`return red_table, green_table, blue_table` statement sits inside the
`for rgb in range(table_size)` body, so only the iteration `rgb = 0`
executes before the function returns.  An empty range would fall through
to an implicit `None` (`Option.none` here). -/
def tables : Option (List Nat × List Nat × List Nat) :=
  let size := kCGDisplayEnabledFlag
  let red := List.replicate size 0
  let green := List.replicate size 0
  let blue := List.replicate size 0
  if 0 < size then
    let c := contrastEntry 0
    some (red.set 0 c, green.set 0 c, blue.set 0 c)
  else none

/-- Embedding of `_setTransfer(tablesNum)`: unpacks `tables()` into the
`CGSetDisplayTransferByTable` call (`none` models the `TypeError` that
unpacking `None` would raise) and wraps the raw status; the applied
tables are recorded in the result. -/
def setTransfer (primStatus : Int) :
    Option (Int × (List Nat × List Nat × List Nat)) :=
  match tables with
  | none => none
  | some t => some ((if primStatus = 0 then 0 else primStatus), t)

/-! ### cgdisplay.py: _pressKey

`_pressKey` consults the tables `keycode` and `c_keycode` imported from
the repository's `mapping` module.  Helper functions model the Python
string operations on ASCII text. -/

/-- Python `str.isupper()` (restricted to ASCII, where the cased
characters are the letters): at least one letter and every letter
uppercase. -/
def pyIsUpper (s : String) : Bool :=
  s.toList.any (fun c => c.isAlpha) && s.toList.all (fun c => !c.isAlpha || c.isUpper)

/-- Python `str.capitalize()`: first character uppercased, the rest
lowercased. -/
def pyCapitalize (s : String) : String :=
  match s.toList with
  | [] => ""
  | c :: cs => (c.toUpper :: cs.map Char.toLower).asString

/-- Python `str.startswith(pre)`. -/
def pyStartsWith (s pre : String) : Bool :=
  decide (s.toList.take pre.toList.length = pre.toList)

/-- Python `dict.get(k, None)` over an association list. -/
def pyLookup (table : List (String × Int)) (k : String) : Option Int :=
  (table.find? fun e => decide (e.1 = k)).map Prod.snd

/-- Python truthiness of an int-or-None value: `None` and `0` are falsy. -/
def pyTruthy : Option Int → Bool
  | none => false
  | some n => decide (n ≠ 0)

/-- Python `a or b` on int-or-None values. -/
def pyOr (a b : Option Int) : Option Int :=
  if pyTruthy a then a else b

/-- Modelled from the spec: the repository's `mapping` module (tables
`keycode` and `c_keycode`) is imported by `cgdisplay.py` but is not under
`src/`.  The spec states that names are resolved against a symbolic
key-code table in two naming conventions (`kVK_ANSI_*` then `kVK_*`) and
that `pressKey("a")` resolves to the lowercase-letter key code and
succeeds; the concrete numeric codes are placeholders (nonzero, so the
entries are truthy as the scenario requires). -/
def keycode : List (String × Int) :=
  [("kVK_ANSI_a", 4), ("kVK_ANSI_b", 11)]

/-- Modelled from the spec: second naming-convention table of the missing
`mapping` module (see `keycode`). -/
def c_keycode : List (String × Int) :=
  [("kVK_Space", 49), ("kVK_Return", 36)]

/-- The key-name transformation at the top of `_pressKey`:
`if key.isupper(): key = key.capitalize()`. -/
def transformKey (key : String) : String :=
  if pyIsUpper key then pyCapitalize key else key

/-- The `_hexKey` computation of `_pressKey`: first the `keycode` table
under the `kVK_ANSI_` convention, then (via Python `or`) the `c_keycode`
table under the `kVK_` convention — first truthy match wins. -/
def resolveKey (key : String) : Option Int :=
  let k := transformKey key
  pyOr (pyLookup keycode (if pyStartsWith k "kVK_ANSI" then k else "kVK_ANSI_" ++ k))
       (pyLookup c_keycode (if pyStartsWith k "kVK_" then k else "kVK_" ++ k))

/-- Embedding of `_pressKey(key)`: returns the wrapped status code and
the list of key codes posted via `CGPostKeyboardEvent` (the source posts
at most one event; the `_virtualKey` selection only chooses a constant
argument of that call and affects neither control flow nor the event
count).  `if _hexKey:` is Python truthiness: `None` and code `0` both
fall to the IllegalArgument branch. -/
def pressKey (key : String) (primStatus : Int) : Int × List Int :=
  match resolveKey key with
  | some n =>
      if n = 0 then (1001, [])
      else ((if primStatus = 0 then 0 else primStatus), [n])
  | none => (1001, [])

/-! ### cgdisplaystream.py: DisplayStreamDelegate.run and its handler -/

/-- The five alternatives of the extension regex, as character lists. -/
def extnTags : List (List Char) :=
  [['j','p','e','g'], ['b','m','p'], ['p','n','g'], ['g','i','f'], ['t','i','f','f']]

/-- Does tag `w` occur in `s` starting at position `j`? -/
def matchAt (s w : List Char) (j : Nat) : Bool :=
  decide ((s.drop j).take w.length = w)

/-- Model of `re.findall(r'.jpeg|.bmp|.png|.gif|.tiff', filename, DOTALL)`
being non-empty: the dot is unescaped and matches any character, so a
match is an occurrence of one of the five tags at some position with at
least one character before it. -/
def extnFound (s : String) : Bool :=
  (List.range s.toList.length).any fun j =>
    decide (j ≠ 0) && extnTags.any fun w => matchAt s.toList w j

/-- Resources acquired by `run` after the extension check, in source
order. -/
inductive StreamEvent
  | queueCreated
  | streamCreated
  | streamStarted
deriving DecidableEq, Repr

/-- Result of `run`: either the `ValueError` raise (citing code 1001)
with no resource event having occurred, or the started stream with its
resource-acquisition trace. -/
inductive RunResult
  | raises (code : Int)
  | started (events : List StreamEvent)
deriving DecidableEq, Repr

/-- Embedding of `DisplayStreamDelegate.run(filename)`: the regex check
on `filename` precedes the dispatch-queue and stream creation; on
failure the `ValueError` (code 1001) is raised before any resource
exists. -/
def streamRun (filename : String) : RunResult :=
  if extnFound filename then
    RunResult.started
      [StreamEvent.queueCreated, StreamEvent.streamCreated, StreamEvent.streamStarted]
  else RunResult.raises 1001

/-- The `NSBitmapImageFileType*` constants that
`representationUsingType_properties_` accepts. -/
inductive BitmapFileType
  | tiff
  | bmp
  | gif
  | jpeg
  | png
deriving DecidableEq, Repr

/-- One file write performed by the frame handler. -/
structure FrameWrite where
  path : String
  filetype : BitmapFileType
deriving DecidableEq, Repr

/-- Embedding of the `handler` closure defined inside `run`: on a frame
whose status is Success (0) it encodes the surface with
`NSBitmapImageFileTypeJPEG` — unconditionally, whatever `filename`
is — and writes to `filename`; on any other status it writes nothing. -/
def frameHandler (filename : String) (status : Int) : Option FrameWrite :=
  if status = 0 then some { path := filename, filetype := BitmapFileType.jpeg }
  else none

/-! ### spec-side definitions (for comparing the code against the
claims' wording) -/

/-- Following the claims' wording: some allowed tag occurs in the path
with at least one character before it (the substring condition the
unescaped-dot regex implements). -/
def SpecTagOccurrence (s : String) : Prop :=
  ∃ w ∈ extnTags, ∃ pre suf : List Char, s.toList = pre ++ (w ++ suf) ∧ pre ≠ []

/-- Following the claims' wording: the file extension of a path — the
text after the last dot. -/
def specFileExtension (s : String) : String :=
  ((s.toList.reverse.takeWhile fun c => c ≠ '.').reverse).asString

/-! ## Helper lemmas -/

lemma contrastEntry_zero : contrastEntry 0 = 63 := by
  unfold contrastEntry
  rw [show (((0 : Nat) : ℚ) / 255 - 1/2) * (1/2) + 1/2 = 1/4 by norm_num]
  rw [min_eq_right (by norm_num : (1:ℚ)/4 ≤ 1),
    max_eq_right (by norm_num : (0:ℚ) ≤ 1/4)]
  rw [show ((1:ℚ)/4 * 255) = 255/4 by norm_num]
  norm_num
  rfl

lemma contrastEntry_one : contrastEntry 1 = 64 := by
  unfold contrastEntry
  rw [show (((1 : Nat) : ℚ) / 255 - 1/2) * (1/2) + 1/2 = 257/1020 by norm_num]
  rw [min_eq_right (by norm_num : (257:ℚ)/1020 ≤ 1),
    max_eq_right (by norm_num : (0:ℚ) ≤ 257/1020)]
  rw [show ((257:ℚ)/1020 * 255) = 257/4 by norm_num]
  norm_num
  rfl

lemma extnTags_ne_nil : ∀ w ∈ extnTags, w ≠ [] := by
  intro w hw
  simp only [extnTags, List.mem_cons, List.not_mem_nil, or_false] at hw
  rcases hw with rfl | rfl | rfl | rfl | rfl <;> simp

/-- The Boolean regex model agrees with the substring condition stated
in the spec's words. -/
lemma extnFound_iff (s : String) : extnFound s = true ↔ SpecTagOccurrence s := by
  unfold extnFound SpecTagOccurrence matchAt
  rw [List.any_eq_true]
  constructor
  · rintro ⟨j, hjmem, hj⟩
    rw [List.mem_range] at hjmem
    rw [Bool.and_eq_true, decide_eq_true_eq, List.any_eq_true] at hj
    obtain ⟨hj0, w, hw, hmatch⟩ := hj
    rw [decide_eq_true_eq] at hmatch
    refine ⟨w, hw, s.toList.take j, (s.toList.drop j).drop w.length, ?_, ?_⟩
    · conv_lhs => rw [← List.take_append_drop j s.toList]
      congr 1
      conv_lhs => rw [← List.take_append_drop w.length (s.toList.drop j)]
      rw [hmatch]
    · intro hnil
      have hlen : (s.toList.take j).length = 0 := by rw [hnil]; rfl
      rw [List.length_take] at hlen
      omega
  · rintro ⟨w, hw, pre, suf, hs, hpre⟩
    have hwlen : 0 < w.length :=
      List.length_pos.mpr (extnTags_ne_nil w hw)
    have hprelen : 0 < pre.length := List.length_pos.mpr hpre
    refine ⟨pre.length, ?_, ?_⟩
    · rw [List.mem_range, hs]
      simp only [List.length_append]
      omega
    · rw [Bool.and_eq_true, decide_eq_true_eq, List.any_eq_true]
      refine ⟨by omega, w, hw, ?_⟩
      rw [decide_eq_true_eq, hs, List.drop_left, List.take_left]

/-! ## Theorems for the claims -/

/-- C1: with one available mode, `setDisplayMode 0` and `setDisplayMode 2`
return IllegalArgument as the claim states, but `setDisplayMode 1` — the
only valid 1-indexed mode index — passes the source's own bounds check
(`modeIndex <= 0 or modeIndex > len(modes)`) and then raises on the
0-indexed access `modes[1]` instead of performing the switch. -/
theorem setDisplayMode_one_mode_eval :
    (setDisplayMode ⟨0⟩ [42] 0 0).2 = ModeResult.err 1001 ∧
    (setDisplayMode ⟨0⟩ [42] 0 2).2 = ModeResult.err 1001 ∧
    (setDisplayMode ⟨0⟩ [42] 0 1).2 = ModeResult.raised := by
  decide

/-- C2: the raw-status translation is a pure total function mapping
0→Success, 1000→Failure, 1001→IllegalArgument, 1011→NoneAvailable,
1970170734→VendorUnknown, 1007→RangeCheck, and every other integer to
the Success name (the documented fallback). -/
theorem err_to_exception_table :
    err_to_exception 0 = "_kCGErrorSuccess" ∧
    err_to_exception 1000 = "_kCGErrorFailure" ∧
    err_to_exception 1001 = "_kCGErrorIllegalArgument" ∧
    err_to_exception 1011 = "_kCGErrorNoneAvailable" ∧
    err_to_exception 1970170734 = "_kDisplayVendorIDUnknown" ∧
    err_to_exception 1007 = "_kCGErrorRangeCheck" ∧
    ∀ e : Int, e ≠ 0 → e ≠ 1000 → e ≠ 1001 → e ≠ 1011 → e ≠ 1970170734 →
      e ≠ 1007 → err_to_exception e = "_kCGErrorSuccess" := by
  refine ⟨rfl, rfl, rfl, rfl, rfl, rfl, ?_⟩
  intro e h0 h1 h2 h3 h4 h5
  simp [err_to_exception, h0, h1, h2, h3, h4, h5]

/-- Witness for C2: the fallback at the concrete unrecognised code
424242. -/
theorem err_to_exception_fallback_witness :
    err_to_exception 424242 = "_kCGErrorSuccess" :=
  err_to_exception_table.2.2.2.2.2.2 424242 (by decide) (by decide) (by decide)
    (by decide) (by decide) (by decide)

/-- C3 counterexample: two command invocations on the same registry
state perform the underlying load twice — the load is not attempted at
most once per registry lifetime. -/
theorem load_attempted_twice_after_two_commands :
    ((setDisplayMode (setDisplayMode ⟨0⟩ [42] 0 2).1 [42] 0 2).1).loadAttempts = 2 ∧
    ¬ ((setDisplayMode (setDisplayMode ⟨0⟩ [42] 0 2).1 [42] 0 2).1).loadAttempts ≤ 1 := by
  decide

/-- C3 amended: there is no caching — `_load` performs the framework
load anew on every call, and every command invocation that needs a
capability (`_setDisplayMode`, `_setRotation`) re-runs it, adding
exactly one load attempt per invocation. -/
theorem load_runs_every_invocation :
    (∀ s : LoadState, (load s).1.loadAttempts = s.loadAttempts + 1) ∧
    (∀ (s : LoadState) (modes : List Nat) (primStatus modeIndex : Int),
      (setDisplayMode s modes primStatus modeIndex).1.loadAttempts =
        s.loadAttempts + 1) ∧
    (∀ (s : LoadState) (canChange : Bool) (primStatus angle : Int),
      (setRotation s canChange primStatus angle).1.loadAttempts =
        s.loadAttempts + 1) :=
  ⟨fun _ => rfl, fun _ _ _ _ => rfl, fun _ _ _ _ => rfl⟩

/-- C4 counterexample: `"outjpeg.txt"` has file extension `txt`, which is
not an allowed image extension, yet `run` accepts it (the unescaped-dot
regex finds the substring `tjpeg`) and creates the stream resources. -/
theorem streamRun_accepts_nonimage_extension :
    specFileExtension "outjpeg.txt" = "txt" ∧
    "txt" ∉ ["jpeg", "bmp", "png", "gif", "tiff"] ∧
    streamRun "outjpeg.txt" =
      RunResult.started
        [StreamEvent.queueCreated, StreamEvent.streamCreated,
          StreamEvent.streamStarted] := by
  refine ⟨by decide, by decide, by decide⟩

/-- C4 amended: `run(path)` fails with IllegalArgument (code 1001)
exactly when the path contains no occurrence of one of
jpeg/bmp/png/gif/tiff preceded by at least one character — a
substring-presence test, not a true extension check; the test still
happens strictly before any stream resource is created (the failing
branch carries no resource events). -/
theorem streamRun_error_iff_no_tag_occurrence (fn : String) :
    streamRun fn = RunResult.raises 1001 ↔ ¬ SpecTagOccurrence fn := by
  rw [← extnFound_iff]
  unfold streamRun
  cases h : extnFound fn <;> simp [h]

/-- Witness for C4 amended: `run("out.txt")` raises IllegalArgument with
no stream resource created. -/
theorem streamRun_rejects_out_txt :
    streamRun "out.txt" = RunResult.raises 1001 :=
  (streamRun_error_iff_no_tag_occurrence "out.txt").mpr
    (fun hspec => absurd ((extnFound_iff "out.txt").mpr hspec) (by decide))

/-- C5: `setGamma(r, r, r)` returns IllegalArgument for every rational
`r` and every raw status, and the gamma write is never attempted. -/
theorem setGamma_equal_channels_illegal (r : ℚ) (primStatus : Int) :
    setGamma r r r primStatus = (GammaRes.err 1001, false) := by
  simp [setGamma]

/-- Witness for C5 at `r = 1`. -/
theorem setGamma_equal_channels_witness :
    setGamma 1 1 1 0 = (GammaRes.err 1001, false) :=
  setGamma_equal_channels_illegal 1 0

/-- C6 counterexample: at angle 45 (45 % 90 ≠ 0) on a rotation-capable
device the orientation primitive IS called, and when it reports Success
the function returns Success, not IllegalArgument — the validation is
neither local nor performed before the hardware call. -/
theorem setRotation_invalid_angle_calls_primitive :
    (setRotation ⟨0⟩ true 0 45).2.primCalled = true ∧
    (setRotation ⟨0⟩ true 0 45).2.res = some 0 := by
  decide

/-- C6 amended: on a rotation-capable device `setRotation` invokes the
orientation primitive first; only when the primitive reports a
non-success status and `angle % 90 ≠ 0` does it return IllegalArgument —
with the primitive already called. -/
theorem setRotation_illegal_after_primitive_failure
    (s : LoadState) (primStatus angle : Int)
    (hp : primStatus ≠ 0) (ha : angle % 90 ≠ 0) :
    (setRotation s true primStatus angle).2 =
      { res := some 1001, primCalled := true } := by
  simp [setRotation, load, hp, ha]

/-- Witness for C6 amended at status 1000, angle 45. -/
theorem setRotation_45_witness :
    (setRotation ⟨0⟩ true 1000 45).2 =
      { res := some 1001, primCalled := true } :=
  setRotation_illegal_after_primitive_failure ⟨0⟩ 1000 45 (by decide) (by decide)

/-- C7 counterexample: the point (-1, 0) is out of bounds in the claim's
sense (x < 0), yet `moveTo` forwards it to the cursor-move primitive and
returns Success — lower bounds are not validated. -/
theorem moveTo_negative_forwarded :
    ¬ (0 ≤ (-1 : Int)) ∧
    moveTo 100 100 (-1) 0 0 = { code := 0, primCalled := true } := by
  decide

/-- C7 amended: `moveTo` returns IllegalArgument without touching the
primitive exactly when `x ≥ width` or `y ≥ height`; any other point —
negative coordinates included — is forwarded to the primitive. -/
theorem moveTo_illegal_iff_upper_bounds (w h x y primStatus : Int) :
    moveTo w h x y primStatus = { code := 1001, primCalled := false } ↔
      (x ≥ w ∨ y ≥ h) := by
  unfold moveTo
  by_cases hc : x ≥ w ∨ y ≥ h
  · simp [hc]
  · simp [hc]

/-- Witness for C7 amended at x = 200 ≥ width = 100. -/
theorem moveTo_oob_witness :
    moveTo 100 100 200 0 0 = { code := 1001, primCalled := false } :=
  (moveTo_illegal_iff_upper_bounds 100 100 200 0 0).mpr (Or.inl (by decide))

/-- C8: `pressKey` returns IllegalArgument (posting nothing) precisely
when the two-convention table resolution yields nothing truthy, and for
the name "a" it posts exactly one key event and returns Success.  (The
key tables are modelled from the spec, `mapping.py` being absent from
the sources.) -/
theorem pressKey_resolution_and_a :
    (∀ (key : String) (primStatus : Int),
        pressKey key primStatus = (1001, ([] : List Int)) ↔
          pyTruthy (resolveKey key) = false) ∧
    (pressKey "a" 0).1 = 0 ∧ ((pressKey "a" 0).2).length = 1 := by
  refine ⟨?_, by decide, by decide⟩
  intro key p
  unfold pressKey
  cases h : resolveKey key with
  | none => simp [pyTruthy]
  | some n =>
    by_cases hn : n = 0
    · subst hn
      simp [pyTruthy]
    · simp [pyTruthy, hn]

/-- Witness for C8 at the unresolvable name "zzz". -/
theorem pressKey_unresolved_witness :
    pressKey "zzz" 0 = (1001, ([] : List Int)) :=
  (pressKey_resolution_and_a.1 "zzz" 0).mpr (by decide)

/-- C9: evaluation of the transfer tables at the failing input — the
table actually applied by `setTransfer` has entry 0 = 63 but entry 1 = 0,
whereas the contrast transform at index 1 yields 64: the `return` inside
the loop leaves every entry but the first at its zero initialisation. -/
theorem setTransfer_table_only_first_entry :
    ((setTransfer 0).map fun r => (r.2.1.get? 0, r.2.1.get? 1)) =
      some (some 63, some 0) ∧
    contrastEntry 1 = 64 := by
  constructor
  · simp only [setTransfer, tables, kCGDisplayEnabledFlag, contrastEntry_zero]
    decide
  · exact contrastEntry_one

/-- C10: for every accepted target path and every frame delivered with
Success status, the handler writes JPEG-encoded data to that path,
whatever its extension. -/
theorem frameHandler_always_jpeg (fn : String) (status : Int)
    (hacc : extnFound fn = true) (hframe : status = 0) :
    streamRun fn ≠ RunResult.raises 1001 ∧
    frameHandler fn status =
      some { path := fn, filetype := BitmapFileType.jpeg } := by
  subst hframe
  refine ⟨?_, rfl⟩
  simp [streamRun, hacc]

/-- Witness for C10: a capture started with "frame.png" writes
JPEG-encoded bytes to that .png file. -/
theorem frameHandler_frame_png_witness :
    streamRun "frame.png" ≠ RunResult.raises 1001 ∧
    frameHandler "frame.png" 0 =
      some { path := "frame.png", filetype := BitmapFileType.jpeg } :=
  frameHandler_always_jpeg "frame.png" 0 (by decide) rfl

end Screman
